import Mathlib

/-!
Fitness tracker dashboard: calorie estimator and plan store.

A shallow embedding of `src/pages/Dashboard.jsx`: the calorie and macro
computation (`calcBMR`, `activityMultiplier`, `handleCalculate`) and the plan
handlers (`saveCurrentPlanToBackend`, `deletePlan`, `loadPlan`, the mount
effects), as transitions on an explicit component state, Local Store and log
of issued requests.

Modelling conventions.

* A JavaScript number is a `Double`: `NaN`, an infinity, or a finite value held
  as a rational. Every arithmetic operation and every numeric literal rounds
  its exact result to the nearest binary64 value, ties to even, with overflow
  to an infinity and gradual underflow, as IEEE-754 prescribes. The two zeros
  are one value: the component never divides by a variable and never inspects
  the sign of a zero, so it cannot tell them apart.
* A React handler is a function on `World`: the state it leaves behind once
  the queued `set...` calls are applied, the Local Store and the requests it
  issued. A remote call and its callbacks are one transition whose outcome is
  an argument.
* A Local Store entry holds the value the code hands to `JSON.stringify`; the
  JSON text writes `NaN` and the infinities as `null`, the entry keeps the
  number.
-/

namespace Dashboard

/-! ## JavaScript numbers -/

/-- A JavaScript Number. -/
inductive Double where
  | nan
  | inf (negative : Bool)
  | fin (q : ℚ)
  deriving DecidableEq, Repr

namespace Double

/-- The power `2 ^ e` for an integer exponent. -/
def pow2 (e : ℤ) : ℚ :=
  if 0 ≤ e then ((2 ^ e.toNat : ℕ) : ℚ) else 1 / ((2 ^ (-e).toNat : ℕ) : ℚ)

/-- Binary logarithm by halving, at most `fuel` times. -/
def log2Aux : ℕ → ℕ → ℕ
  | 0, _ => 0
  | fuel + 1, n => if 2 ≤ n then log2Aux fuel (n / 2) + 1 else 0

/-- The binary logarithm of a natural number, rounded down. -/
def log2 (n : ℕ) : ℕ := log2Aux n n

/-- The binary exponent of a positive rational: `2 ^ e ≤ q < 2 ^ (e + 1)`. -/
def exponent (q : ℚ) : ℤ :=
  let e0 : ℤ := (log2 q.num.natAbs : ℤ) - (log2 q.den : ℤ)
  if pow2 e0 ≤ q then e0 else e0 - 1

/-- The spacing of the doubles around `q`: 52 fraction bits below the binary
    exponent, which is never taken below that of the subnormal range. -/
def ulp (q : ℚ) : ℚ := pow2 (max (exponent |q|) (-1022) - 52)

/-- Nearest integer, ties to the even one. -/
def roundHalfEven (m : ℚ) : ℤ :=
  let n := ⌊m⌋
  if m - n < 1 / 2 then n
  else if 1 / 2 < m - n then n + 1
  else if n % 2 = 0 then n else n + 1

/-- The Number value for a mathematical value: the nearest double, ties to
    even, an infinity from `2 ^ 1024` on. -/
def ofRat (q : ℚ) : Double :=
  if q = 0 then fin 0
  else
    let r := (roundHalfEven (q / ulp q) : ℚ) * ulp q
    if pow2 1024 ≤ |r| then inf (decide (q < 0)) else fin r

/-- Unary minus. -/
def neg (a : Double) : Double :=
  match a with
  | nan => nan
  | inf s => inf (!s)
  | fin q => fin (-q)

/-- The operator `+`. -/
def add (a b : Double) : Double :=
  match a, b with
  | nan, _ => nan
  | _, nan => nan
  | inf s, inf t => if s = t then inf s else nan
  | inf s, fin _ => inf s
  | fin _, inf t => inf t
  | fin x, fin y => ofRat (x + y)

/-- The operator `-`. -/
def sub (a b : Double) : Double := add a (neg b)

/-- The operator `*`. -/
def mul (a b : Double) : Double :=
  match a, b with
  | nan, _ => nan
  | _, nan => nan
  | inf s, inf t => inf (s != t)
  | inf s, fin y => if y = 0 then nan else inf (s != decide (y < 0))
  | fin x, inf t => if x = 0 then nan else inf (decide (x < 0) != t)
  | fin x, fin y => ofRat (x * y)

/-- The operator `/`. A zero divisor counts as positive zero. -/
def div (a b : Double) : Double :=
  match a, b with
  | nan, _ => nan
  | _, nan => nan
  | inf _, inf _ => nan
  | inf s, fin y => inf (s != decide (y < 0))
  | fin _, inf _ => fin 0
  | fin x, fin y =>
    if y = 0 then (if x = 0 then nan else inf (decide (x < 0)))
    else ofRat (x / y)

/-- The comparison `a <= b`, false when either side is `NaN`. -/
def le (a b : Double) : Bool :=
  match a, b with
  | nan, _ => false
  | _, nan => false
  | inf true, _ => true
  | inf false, inf t => !t
  | inf false, fin _ => false
  | fin _, inf t => !t
  | fin x, fin y => decide (x ≤ y)

/-- Truthiness of a number: neither `NaN` nor zero. -/
def truthy (a : Double) : Bool :=
  match a with
  | nan => false
  | inf _ => true
  | fin q => decide (q ≠ 0)

/-- The test `Number.isFinite`. -/
def isFinite (a : Double) : Bool :=
  match a with
  | fin _ => true
  | _ => false

instance : Neg Double := ⟨neg⟩
instance : Add Double := ⟨add⟩
instance : Sub Double := ⟨sub⟩
instance : Mul Double := ⟨mul⟩
instance : Div Double := ⟨div⟩
instance : LE Double := ⟨fun a b => le a b = true⟩
instance (a b : Double) : Decidable (a ≤ b) := inferInstanceAs (Decidable (le a b = true))
instance (n : ℕ) : OfNat Double n := ⟨ofRat n⟩
instance : OfScientific Double := ⟨fun m s e => ofRat (OfScientific.ofScientific m s e)⟩

end Double

/-- The function `Math.round`: the nearest integer, halves towards positive
    infinity. -/
def Math.round (x : Double) : Double :=
  match x with
  | .nan => .nan
  | .inf s => .inf s
  | .fin q => .fin ⌊q + 1 / 2⌋

/-- The function `Math.max` on two arguments. -/
def Math.max (a b : Double) : Double :=
  match a, b with
  | .nan, _ => .nan
  | _, .nan => .nan
  | a, b => if a ≤ b then b else a

/-! ## JavaScript values and text -/

/-- The values a numeric form field or snapshot property holds. -/
inductive Val where
  | undefined
  | str (s : String)
  | num (d : Double)
  deriving DecidableEq, Repr

/-- WhiteSpace and LineTerminator code points of ECMAScript, the characters
    that `String.prototype.trim` and `Number` strip. -/
def isWhiteSpace (c : Char) : Bool :=
  let n := c.toNat
  n == 0x09 || n == 0x0A || n == 0x0B || n == 0x0C || n == 0x0D || n == 0x20 ||
  n == 0xA0 || n == 0x1680 || (0x2000 ≤ n && n ≤ 0x200A) || n == 0x2028 ||
  n == 0x2029 || n == 0x202F || n == 0x205F || n == 0x3000 || n == 0xFEFF

/-- The characters of `s.trim()`. -/
def trimChars (cs : List Char) : List Char :=
  ((cs.dropWhile isWhiteSpace).reverse.dropWhile isWhiteSpace).reverse

/-- The method `String.prototype.trim`. -/
def trim (s : String) : String := ⟨trimChars s.data⟩

/-- Value of one digit in the given base, if it is one. -/
def digitVal (base : Nat) (c : Char) : Option Nat :=
  let n := c.toNat
  let v : Option Nat :=
    if 48 ≤ n ∧ n ≤ 57 then some (n - 48)
    else if 97 ≤ n ∧ n ≤ 102 then some (n - 87)
    else if 65 ≤ n ∧ n ≤ 70 then some (n - 55)
    else none
  match v with
  | some d => if d < base then some d else none
  | none => none

/-- Value of a non-empty run of digits in the given base. -/
def digitsVal (base : Nat) (cs : List Char) : Option Nat :=
  if cs.isEmpty then none
  else cs.foldl (fun acc c =>
    match acc, digitVal base c with
    | some a, some d => some (a * base + d)
    | _, _ => none) (some 0)

/-- Predicate for a decimal digit. -/
def isDecDigit (c : Char) : Bool := (digitVal 10 c).isSome

/-- The exponent part of a decimal literal: empty, or `e`/`E` followed by an
    optionally signed run of digits. -/
def exponentPart (cs : List Char) : Option Int :=
  match cs with
  | [] => some 0
  | c :: r =>
    if c = 'e' ∨ c = 'E' then
      match r with
      | '+' :: ds => (digitsVal 10 ds).map Int.ofNat
      | '-' :: ds => (digitsVal 10 ds).map (fun n => - Int.ofNat n)
      | ds => (digitsVal 10 ds).map Int.ofNat
    else none

/-- The power `10 ^ e` for an integer exponent. -/
def pow10 (e : ℤ) : ℚ :=
  if 0 ≤ e then ((10 ^ e.toNat : ℕ) : ℚ) else 1 / ((10 ^ (-e).toNat : ℕ) : ℚ)

/-- StrUnsignedDecimalLiteral: `Infinity`, or `digits`, `digits.`,
    `digits.digits`, `.digits`, each with an optional exponent, read as the
    double nearest to the decimal value. -/
def unsignedDecimal (cs : List Char) : Option Double :=
  if cs = ['I', 'n', 'f', 'i', 'n', 'i', 't', 'y'] then some (.inf false)
  else
    let ip := cs.takeWhile isDecDigit
    let rest := cs.dropWhile isDecDigit
    let fp := match rest with
      | '.' :: r => r.takeWhile isDecDigit
      | _ => []
    let tail := match rest with
      | '.' :: r => r.dropWhile isDecDigit
      | _ => rest
    if ip.isEmpty ∧ fp.isEmpty then none
    else
      match digitsVal 10 ('0' :: (ip ++ fp)), exponentPart tail with
      | some m, some e => some (Double.ofRat ((m : ℚ) * pow10 (e - (fp.length : Int))))
      | _, _ => none

/-- StringToNumber on the characters left after trimming. -/
def stringNumericLiteral (cs : List Char) : Option Double :=
  match cs with
  | [] => some (.fin 0)
  | '0' :: 'x' :: ds => (digitsVal 16 ds).map (fun n => Double.ofRat n)
  | '0' :: 'X' :: ds => (digitsVal 16 ds).map (fun n => Double.ofRat n)
  | '0' :: 'o' :: ds => (digitsVal 8 ds).map (fun n => Double.ofRat n)
  | '0' :: 'O' :: ds => (digitsVal 8 ds).map (fun n => Double.ofRat n)
  | '0' :: 'b' :: ds => (digitsVal 2 ds).map (fun n => Double.ofRat n)
  | '0' :: 'B' :: ds => (digitsVal 2 ds).map (fun n => Double.ofRat n)
  | '+' :: ds => unsignedDecimal ds
  | '-' :: ds => (unsignedDecimal ds).map Double.neg
  | ds => unsignedDecimal ds

/-- The conversion `Number(v)`. -/
def Number (v : Val) : Double :=
  match v with
  | .undefined => .nan
  | .str s => (stringNumericLiteral (trimChars s.data)).getD .nan
  | .num d => d

/-- Truthiness of a value. -/
def Val.truthy (v : Val) : Bool :=
  match v with
  | .undefined => false
  | .str s => decide (s ≠ "")
  | .num d => d.truthy

/-- The number `n` as a value. -/
def Val.ofNumber (n : Double) : Val := .num n

/-- The expression `v || ""`. -/
def Val.orEmpty (v : Val) : Val := if v.truthy then v else .str ""

/-- The expression `s || d` on strings. -/
def strOr (s d : String) : String := if s ≠ "" then s else d

/-! ## Helper functions (BMR/TDEE) -/

/-- The function `calcBMR` (Mifflin-St Jeor). -/
def calcBMR (sex : String) (weightKg heightCm age : Double) : Double :=
  if sex = "female" then Math.round (10 * weightKg + 6.25 * heightCm - 5 * age - 161)
  else Math.round (10 * weightKg + 6.25 * heightCm - 5 * age + 5)

/-- The function `activityMultiplier`. -/
def activityMultiplier (level : String) : Double :=
  if level = "sedentary" then 1.2
  else if level = "light" then 1.375
  else if level = "moderate" then 1.55
  else if level = "active" then 1.725
  else if level = "very" then 1.9
  else 1.375

/-! ## Data model -/

/-- The record `res` built by `handleCalculate`. -/
structure Result where
  bmr : Double
  tdee : Double
  suggested : Double
  proteinGrams : Double
  fatGrams : Double
  carbsGrams : Double
  goal : String
  activity : String
  deriving DecidableEq, Repr

/-- The record `{sex, age, weightKg, heightCm, activity, goal, result}`: a plan
    snapshot, the `calorieTracker` entry and the body of `/api/calories`. An
    absent string property is the empty string, an absent number `undefined`,
    an absent result `none`: each is falsy like the property it stands for. -/
structure Snapshot where
  sex : String
  age : Val
  weightKg : Val
  heightCm : Val
  activity : String
  goal : String
  result : Option Result
  deriving DecidableEq, Repr

/-- The object `{}` that `loadPlan` reads when a plan has no snapshot. -/
def Snapshot.empty : Snapshot :=
  { sex := "", age := .undefined, weightKg := .undefined, heightCm := .undefined,
    activity := "", goal := "", result := none }

/-- A plan of the list shown on the dashboard. -/
structure Plan where
  id : String
  name : String
  goal : String
  createdAt : String
  snapshot : Option Snapshot
  deriving DecidableEq, Repr

/-- A plan record as the backend returns it. -/
structure ServerPlan where
  _id : String
  name : String
  goal : String
  createdAt : String
  snapshot : Option Snapshot
  deriving DecidableEq, Repr

/-- The mapping of a backend record to the local display format. -/
def ServerPlan.mapped (pl : ServerPlan) : Plan :=
  { id := pl._id, name := pl.name, goal := pl.goal, createdAt := pl.createdAt,
    snapshot := pl.snapshot }

/-- The `useState` cells of the component. -/
structure State where
  userEmail : String
  sex : String
  age : Val
  weightKg : Val
  heightCm : Val
  activity : String
  goal : String
  result : Option Result
  notes : String
  savedPlans : List Plan
  showSavePrompt : Bool
  newPlanName : String
  loadingPlans : Bool
  deriving DecidableEq, Repr

/-- The state of the first render. -/
def State.initial : State :=
  { userEmail := "", sex := "male", age := .str "", weightKg := .str "", heightCm := .str "",
    activity := "moderate", goal := "maintain", result := none, notes := "",
    savedPlans := [], showSavePrompt := false, newPlanName := "", loadingPlans := false }

/-- The keys of `localStorage` the dashboard uses; `none` is a key that is not set. -/
structure LocalStore where
  authToken : Option String
  token : Option String
  userEmail : Option String
  calorieTracker : Option Snapshot
  savedPlans : Option (List Plan)
  deriving DecidableEq, Repr

/-- A request issued through axios; each carries the headers of `getAuthHeader`. -/
inductive Request where
  | getCalories
  | getPlans
  | postCalories (body : Snapshot)
  | deleteCalories
  | postPlans (name goal : String) (snapshot : Snapshot)
  | deletePlans (id : String)
  deriving DecidableEq, Repr

/-- Component state, Local Store and the requests issued so far. -/
structure World where
  state : State
  store : LocalStore
  sent : List Request
  deriving DecidableEq, Repr

/-- Runtime services the handlers call: the clock (`Date.now()`, the locale and
    ISO renderings of `new Date()`) and `String.prototype.toUpperCase`. -/
structure Host where
  now : Int
  toLocaleString : String
  toISOString : String
  toUpperCase : String → String

/-- Outcome of `GET /api/calories`: rejected, or a response with or without a
    `calorie` record. -/
inductive GetCaloriesOutcome where
  | failed
  | ok (calorie : Option Snapshot)
  deriving DecidableEq, Repr

/-- Outcome of `GET /api/plans`: rejected, or a response with or without `plans`. -/
inductive GetPlansOutcome where
  | failed
  | ok (plans : Option (List ServerPlan))
  deriving DecidableEq, Repr

/-- Outcome of `POST /api/plans`: a transport error, a status outside 2xx, or a
    response with or without a `plan` record. -/
inductive PostPlansOutcome where
  | networkError
  | httpError (status : Nat)
  | ok (plan : Option ServerPlan)
  deriving DecidableEq, Repr

/-- Outcome of `DELETE /api/plans/:id`. -/
inductive DeletePlansOutcome where
  | failed
  | ok
  deriving DecidableEq, Repr

/-! ## The component -/

/-- The function `getAuthHeader`: the `Authorization` header, when a token is stored. -/
def getAuthHeader (ls : LocalStore) : Option String :=
  let token := strOr (ls.authToken.getD "") (ls.token.getD "")
  if token = "" then none else some ("Bearer " ++ token)

/-- The function `loadLocalPlans`. -/
def loadLocalPlans (ls : LocalStore) (s : State) : State :=
  match ls.savedPlans with
  | some parsed => { s with savedPlans := parsed }
  | none => s

/-- The effect on `[savedPlans]`: it runs after the first render and after every
    render in which `savedPlans` is a new array. -/
def persistSavedPlans (w : World) : World :=
  { w with store := { w.store with savedPlans := some w.state.savedPlans } }

/-- Lines 154-169 of `handleCalculate`: the result for validated numbers. -/
def calcResult (sex activity goal : String) (ageN weightN heightN : Double) : Result :=
  let bmr := calcBMR sex weightN heightN ageN
  let tdee := Math.round (bmr * activityMultiplier activity)
  let suggested :=
    if goal = "maintain" then tdee
    else if goal = "cut" then Math.round (tdee * 0.8)
    else Math.round (tdee * 1.15)
  let proteinGrams := Math.round (2 * weightN)
  let proteinCals := proteinGrams * 4
  let fatCals := Math.round (suggested * 0.25)
  let fatGrams := Math.round (fatCals / 9)
  let carbsCals := suggested - (proteinCals + fatCals)
  let carbsGrams := Math.max 0 (Math.round (carbsCals / 4))
  { bmr := bmr, tdee := tdee, suggested := suggested, proteinGrams := proteinGrams,
    fatGrams := fatGrams, carbsGrams := carbsGrams, goal := goal, activity := activity }

/-- The handler `handleCalculate`. -/
def handleCalculate (w : World) : World :=
  let s := w.state
  let ageN := Number s.age
  let weightN := Number s.weightKg
  let heightN := Number s.heightCm
  if !ageN.truthy || !weightN.truthy || !heightN.truthy then
    { w with state :=
        { s with notes := "Please enter valid numeric Age, Weight (kg) and Height (cm)." } }
  else
    let res := calcResult s.sex s.activity s.goal ageN weightN heightN
    let tracker : Snapshot :=
      { result := some res, sex := s.sex, age := s.age, weightKg := s.weightKg,
        heightCm := s.heightCm, activity := s.activity, goal := s.goal }
    let store : LocalStore := { w.store with calorieTracker := some tracker }
    let body : Snapshot :=
      { sex := s.sex, age := Val.ofNumber ageN, weightKg := Val.ofNumber weightN,
        heightCm := Val.ofNumber heightN, activity := s.activity, goal := s.goal,
        result := some res }
    { state := { s with notes := "", result := some res },
      store := store,
      sent := if (getAuthHeader w.store).isSome then w.sent ++ [Request.postCalories body]
              else w.sent }

/-- The object `snapshot` of `saveCurrentPlanToBackend`, for a state whose result is set. -/
def snapshotOf (s : State) (result : Result) : Snapshot :=
  { sex := s.sex, age := Val.ofNumber (Number s.age),
    weightKg := Val.ofNumber (Number s.weightKg),
    heightCm := Val.ofNumber (Number s.heightCm),
    activity := s.activity, goal := s.goal, result := some result }

/-- The plan built without the backend, in the branch without a token and in
    the `catch` of the request. -/
def localPlan (host : Host) (name : String) (goal : String) (snapshot : Snapshot) : Plan :=
  { id := toString host.now,
    name := if name ≠ "" ∧ trim name ≠ "" then trim name
            else host.toUpperCase goal ++ " plan (" ++ host.toLocaleString ++ ")",
    goal := goal,
    createdAt := host.toISOString,
    snapshot := some snapshot }

/-- The handler `saveCurrentPlanToBackend`, with the outcome of its request. -/
def saveCurrentPlanToBackend (host : Host) (name : String) (outcome : PostPlansOutcome)
    (w : World) : World :=
  match w.state.result with
  | none =>
    -- `handleCalculate()` queues its updates; `result` of this render is still null
    let w1 := handleCalculate w
    { w1 with state :=
        { w1.state with notes := "Provide valid Age, Weight, Height to save a plan.",
                        showSavePrompt := false } }
  | some result =>
    let s := w.state
    let snapshot := snapshotOf s result
    match getAuthHeader w.store with
    | none =>
      persistSavedPlans { w with state :=
        { s with savedPlans := localPlan host name s.goal snapshot :: s.savedPlans,
                 showSavePrompt := false, newPlanName := "",
                 notes := "Plan saved locally (no token)." } }
    | some _ =>
      let sent := w.sent ++
        [Request.postPlans (strOr name (host.toUpperCase s.goal ++ " plan")) s.goal snapshot]
      match outcome with
      | .ok (some pl) =>
        persistSavedPlans { w with sent := sent, state :=
          { s with savedPlans := pl.mapped :: s.savedPlans,
                   showSavePrompt := false, newPlanName := "",
                   notes := "Plan saved to server." } }
      | _ =>
        persistSavedPlans { w with sent := sent, state :=
          { s with savedPlans := localPlan host name s.goal snapshot :: s.savedPlans,
                   showSavePrompt := false, newPlanName := "",
                   notes := "Plan saved locally (server error)." } }

/-- The test `id.match(/^[0-9a-fA-F]{24}$/)`. -/
def isServerId (id : String) : Bool :=
  id.data.length == 24 && id.data.all (fun c => (digitVal 16 c).isSome)

/-- The handler `deletePlan`, with the outcome of its request. -/
def deletePlan (id : String) (outcome : DeletePlansOutcome) (w : World) : World :=
  let s := w.state
  let kept := s.savedPlans.filter (fun p => p.id != id)
  if (getAuthHeader w.store).isNone || !isServerId id then
    persistSavedPlans { w with state :=
      { s with savedPlans := kept, notes := "Plan removed locally." } }
  else
    let sent := w.sent ++ [Request.deletePlans id]
    match outcome with
    | .ok =>
      persistSavedPlans { w with sent := sent, state :=
        { s with savedPlans := kept, notes := "Plan removed from server." } }
    | .failed =>
      persistSavedPlans { w with sent := sent, state :=
        { s with savedPlans := kept, notes := "Plan removed (server error or not found)." } }

/-- The handler `loadPlan`. -/
def loadPlan (plan : Plan) (w : World) : World :=
  let s := plan.snapshot.getD Snapshot.empty
  { w with state :=
    { w.state with
      sex := strOr s.sex "male",
      age := s.age.orEmpty,
      weightKg := s.weightKg.orEmpty,
      heightCm := s.heightCm.orEmpty,
      activity := strOr s.activity "moderate",
      goal := strOr plan.goal "maintain",
      result := s.result,
      notes := "Loaded plan: " ++ plan.name } }

/-- The mount effects up to the first re-render: the e-mail effect, the load
    effect up to its requests, and the persist effect, which runs with the
    `savedPlans` of the first render and again once `loadLocalPlans` has set a
    new list. -/
def mountEffects (ls : LocalStore) : World :=
  let s1 := { State.initial with userEmail := ls.userEmail.getD "" }
  let s2 := match ls.calorieTracker with
    | some parsed =>
      { s1 with result := parsed.result,
                sex := strOr parsed.sex "male",
                age := parsed.age.orEmpty,
                weightKg := parsed.weightKg.orEmpty,
                heightCm := parsed.heightCm.orEmpty,
                activity := strOr parsed.activity "moderate",
                goal := strOr parsed.goal "maintain" }
    | none => s1
  let firstPersist : LocalStore := { ls with savedPlans := some State.initial.savedPlans }
  match getAuthHeader ls with
  | none =>
    let s3 := loadLocalPlans ls
      { s2 with notes := "No auth token found — saved plans will be local only." }
    let w : World := { state := s3, store := firstPersist, sent := [] }
    if ls.savedPlans.isSome then persistSavedPlans w else w
  | some _ =>
    { state := { s2 with loadingPlans := true },
      store := firstPersist,
      sent := [Request.getCalories, Request.getPlans] }

/-- The callbacks of `GET /api/calories`. -/
def onCalories (outcome : GetCaloriesOutcome) (w : World) : World :=
  match outcome with
  | .ok (some c) =>
    { w with state :=
      { w.state with
        sex := strOr c.sex "male",
        age := c.age.orEmpty,
        weightKg := c.weightKg.orEmpty,
        heightCm := c.heightCm.orEmpty,
        activity := strOr c.activity "moderate",
        goal := strOr c.goal "maintain",
        result := c.result,
        notes := "" } }
  | _ => w

/-- The callbacks of `GET /api/plans`, with the persist effect of the render
    they cause. -/
def onPlans (outcome : GetPlansOutcome) (w : World) : World :=
  match outcome with
  | .ok (some plans) =>
    persistSavedPlans { w with state :=
      { w.state with savedPlans := plans.map ServerPlan.mapped, loadingPlans := false } }
  | _ =>
    let w1 : World :=
      { w with state := { loadLocalPlans w.store w.state with loadingPlans := false } }
    if w.store.savedPlans.isSome then persistSavedPlans w1 else w1

/-- The dashboard from mount until both requests have settled. -/
def mount (ls : LocalStore) (calories : GetCaloriesOutcome) (plans : GetPlansOutcome) : World :=
  let w := mountEffects ls
  if (getAuthHeader ls).isSome then onPlans plans (onCalories calories w) else w

/-! ## Example inputs -/

/-- A dashboard with the given form fields, no result, no plans, an empty
    Local Store and nothing sent. -/
def formWorld (sex : String) (age weightKg heightCm : Val) (activity goal : String) : World :=
  { state := { State.initial with sex := sex, age := age, weightKg := weightKg,
                                  heightCm := heightCm, activity := activity, goal := goal },
    store := { authToken := none, token := none, userEmail := none,
               calorieTracker := none, savedPlans := none },
    sent := [] }

/-- The scenario of the specification: male, 30 years, 80 kg, 180 cm, moderate,
    typed into the form. -/
def scenario (goal : String) : World :=
  formWorld "male" (.str "30") (.str "80") (.str "180") "moderate" goal

/-- The form of a man of moderate activity with the given text in the age,
    weight and height fields. -/
def typed (age weightKg heightCm goal : String) : World :=
  formWorld "male" (.str age) (.str weightKg) (.str heightCm) "moderate" goal

/-- The scenario with a negative weight typed into the form. -/
def negativeWeight : World :=
  formWorld "male" (.str "30") (.str "-80") (.str "180") "moderate" "maintain"

/-- A host for the examples: a fixed clock and upper-casing of ASCII letters. -/
def exampleHost : Host :=
  { now := 1700000000000,
    toLocaleString := "11/14/2023, 10:13:20 PM",
    toISOString := "2023-11-14T22:13:20.000Z",
    toUpperCase := fun s => s.map Char.toUpper }

/-- The scenario after `Calculate`, so that a result is present. -/
def calculated (goal : String) : World := handleCalculate (scenario goal)

/-- The calculated scenario of a signed-in user. -/
def signedIn (goal : String) : World :=
  { calculated goal with store := { (calculated goal).store with authToken := some "t0k3n" } }

/-- A plan saved in an earlier session. -/
def storedPlan : Plan :=
  { id := "1699999999999", name := "Summer cut", goal := "cut",
    createdAt := "2023-11-14T22:13:19.999Z", snapshot := none }

/-- The Local Store of a signed-in user who has one locally saved plan. -/
def returningUser : LocalStore :=
  { authToken := some "t0k3n", token := none, userEmail := none,
    calorieTracker := none, savedPlans := some [storedPlan] }

/-- The record the backend returns when it creates the plan of the signed-in
    scenario with goal cut. -/
def createdPlan : ServerPlan :=
  { _id := "65540a1f9b3c2d4e5f6a7b8c", name := "CUT plan", goal := "cut",
    createdAt := "2023-11-14T22:13:20.000Z",
    snapshot := some (snapshotOf (signedIn "cut").state
      (calcResult "male" "moderate" "cut" 30 80 180)) }

/-- The scenario with weight `1e308` typed into the form. -/
def hugeWeight : World :=
  formWorld "male" (.str "30") (.str "1e308") (.str "180") "moderate" "maintain"

/-- The scenario with height `1e17` typed into the form. -/
def hugeHeight : World :=
  formWorld "male" (.str "30") (.str "80") (.str "1e17") "moderate" "maintain"

/-- The validation message of `handleCalculate`. -/
def validationMessage : String :=
  "Please enter valid numeric Age, Weight (kg) and Height (cm)."

/-- A converted field the guard of `handleCalculate` rejects: `NaN` or zero. -/
def Unusable (n : Double) : Prop := n = .nan ∨ n = .fin 0

/-! ## Validation and the result of `handleCalculate` -/

theorem handleCalculate_result_of_valid (w : World) (a wt h : Double)
    (hage : Number w.state.age = a) (hweight : Number w.state.weightKg = wt)
    (hheight : Number w.state.heightCm = h)
    (ha : a.truthy = true) (hwt : wt.truthy = true) (hh : h.truthy = true) :
    (handleCalculate w).state.result =
      some (calcResult w.state.sex w.state.activity w.state.goal a wt h) := by
  subst hage hweight hheight
  simp [handleCalculate, ha, hwt, hh]

/-- C1: for every input that passes validation, `handleCalculate` sets `bmr`
    to `Math.round` of the Mifflin-St Jeor expression for the sex (the female
    one for `female`, the male one otherwise) and `tdee` to
    `Math.round(bmr * m)` with `m` from the activity table, 1.375 for any level
    outside it. The arithmetic is that of the program, on doubles; `Math.round`
    takes a finite value to the nearest integer, halves upwards. -/
theorem handleCalculate_bmr_tdee (w : World) (a wt h : Double)
    (hage : Number w.state.age = a) (hweight : Number w.state.weightKg = wt)
    (hheight : Number w.state.heightCm = h)
    (ha : a.truthy = true) (hwt : wt.truthy = true) (hh : h.truthy = true) :
    (∀ q : ℚ, Math.round (.fin q) = .fin ⌊q + 1 / 2⌋) ∧
    ∃ r : Result, (handleCalculate w).state.result = some r ∧
      r.bmr = (if w.state.sex = "female" then Math.round (10 * wt + 6.25 * h - 5 * a - 161)
               else Math.round (10 * wt + 6.25 * h - 5 * a + 5)) ∧
      ∃ m : Double, r.tdee = Math.round (r.bmr * m) ∧
        (w.state.activity = "sedentary" → m = 1.2) ∧
        (w.state.activity = "light" → m = 1.375) ∧
        (w.state.activity = "moderate" → m = 1.55) ∧
        (w.state.activity = "active" → m = 1.725) ∧
        (w.state.activity = "very" → m = 1.9) ∧
        (w.state.activity ∉ ["sedentary", "light", "moderate", "active", "very"] → m = 1.375) := by
  refine ⟨fun _ => rfl, _,
    handleCalculate_result_of_valid w a wt h hage hweight hheight ha hwt hh, ?_, ?_⟩
  · simp only [calcResult, calcBMR]
  · refine ⟨activityMultiplier w.state.activity, ?_, ?_, ?_, ?_, ?_, ?_, ?_⟩
    · simp only [calcResult]
    · intro e; simp [activityMultiplier, e]
    · intro e; simp [activityMultiplier, e]
    · intro e; simp [activityMultiplier, e]
    · intro e; simp [activityMultiplier, e]
    · intro e; simp [activityMultiplier, e]
    · intro e
      simp only [List.mem_cons, List.mem_singleton, List.not_mem_nil, or_false, not_or] at e
      simp [activityMultiplier, e]

theorem handleCalculate_bmr_tdee_witness :
    (∃ r : Result, (handleCalculate (scenario "maintain")).state.result = some r ∧
      r.bmr = 1780 ∧ r.tdee = 2759) ∧
    (∃ r : Result, (handleCalculate (typed "30" "70.2499999999999999999" "180"
        "maintain")).state.result = some r ∧ r.bmr = 1683 ∧ r.tdee = 2609) ∧
    (∃ r : Result, (handleCalculate hugeHeight).state.result = some r ∧
      r.bmr = 625000000000000640) := by
  refine ⟨?_, ?_, ?_⟩
  · obtain ⟨_, r, hr, hb, m, ht, _, _, hm, _⟩ :=
      handleCalculate_bmr_tdee (scenario "maintain") 30 80 180
        (by decide!) (by decide!) (by decide!) (by decide!) (by decide!) (by decide!)
    have hb1 : r.bmr = 1780 := by rw [hb]; decide!
    refine ⟨r, hr, hb1, ?_⟩
    rw [ht, hb1, hm (by decide!)]
    decide!
  · obtain ⟨_, r, hr, hb, m, ht, _, _, hm, _⟩ :=
      handleCalculate_bmr_tdee (typed "30" "70.2499999999999999999" "180" "maintain")
        30 70.25 180
        (by decide!) (by decide!) (by decide!) (by decide!) (by decide!) (by decide!)
    have hb1 : r.bmr = 1683 := by rw [hb]; decide!
    refine ⟨r, hr, hb1, ?_⟩
    rw [ht, hb1, hm (by decide!)]
    decide!
  · obtain ⟨_, r, hr, hb, _⟩ :=
      handleCalculate_bmr_tdee hugeHeight 30 80 100000000000000000
        (by decide!) (by decide!) (by decide!) (by decide!) (by decide!) (by decide!)
    refine ⟨r, hr, ?_⟩
    rw [hb]; decide!

/-- C2: for every input that passes validation, the suggested calories are
    `tdee` for goal maintain, `Math.round(tdee * 0.8)` for cut and
    `Math.round(tdee * 1.15)` for bulk, the products being those of the program,
    on doubles. -/
theorem handleCalculate_suggested (w : World) (a wt h : Double)
    (hage : Number w.state.age = a) (hweight : Number w.state.weightKg = wt)
    (hheight : Number w.state.heightCm = h)
    (ha : a.truthy = true) (hwt : wt.truthy = true) (hh : h.truthy = true) :
    ∃ r : Result, (handleCalculate w).state.result = some r ∧
      (w.state.goal = "maintain" → r.suggested = r.tdee) ∧
      (w.state.goal = "cut" → r.suggested = Math.round (r.tdee * 0.8)) ∧
      (w.state.goal = "bulk" → r.suggested = Math.round (r.tdee * 1.15)) := by
  refine ⟨_, handleCalculate_result_of_valid w a wt h hage hweight hheight ha hwt hh, ?_, ?_, ?_⟩
  · intro e; simp [calcResult, e]
  · intro e; simp [calcResult, e]
  · intro e; simp [calcResult, e]

theorem handleCalculate_suggested_witness :
    (∃ r : Result, (handleCalculate (scenario "cut")).state.result = some r ∧
      r.tdee = 2759 ∧ r.suggested = 2207) ∧
    (∃ r : Result, (handleCalculate (scenario "maintain")).state.result = some r ∧
      r.tdee = 2759 ∧ r.suggested = 2759) ∧
    (∃ r : Result, (handleCalculate (typed "30" "82" "180" "bulk")).state.result = some r ∧
      r.tdee = 2790 ∧ r.suggested = 3208) := by
  refine ⟨?_, ?_, ?_⟩
  · obtain ⟨r, hr, _, hcut, _⟩ :=
      handleCalculate_suggested (scenario "cut") 30 80 180
        (by decide!) (by decide!) (by decide!) (by decide!) (by decide!) (by decide!)
    have ht : (handleCalculate (scenario "cut")).state.result.map (fun x => x.tdee) =
        some 2759 := by
      decide!
    rw [hr] at ht
    have ht1 : r.tdee = 2759 := by simpa using ht
    refine ⟨r, hr, ht1, ?_⟩
    rw [hcut (by decide!), ht1]
    decide!
  · obtain ⟨r, hr, hkeep, _, _⟩ :=
      handleCalculate_suggested (scenario "maintain") 30 80 180
        (by decide!) (by decide!) (by decide!) (by decide!) (by decide!) (by decide!)
    have ht : (handleCalculate (scenario "maintain")).state.result.map (fun x => x.tdee) =
        some 2759 := by
      decide!
    rw [hr] at ht
    have ht1 : r.tdee = 2759 := by simpa using ht
    exact ⟨r, hr, ht1, by rw [hkeep (by decide!), ht1]⟩
  · obtain ⟨r, hr, _, _, hbulk⟩ :=
      handleCalculate_suggested (typed "30" "82" "180" "bulk") 30 82 180
        (by decide!) (by decide!) (by decide!) (by decide!) (by decide!) (by decide!)
    have ht : (handleCalculate (typed "30" "82" "180" "bulk")).state.result.map
        (fun x => x.tdee) = some 2790 := by
      decide!
    rw [hr] at ht
    have ht1 : r.tdee = 2790 := by simpa using ht
    refine ⟨r, hr, ht1, ?_⟩
    rw [hbulk (by decide!), ht1]
    decide!

theorem Double.ofRat_ne_nan (q : ℚ) : Double.ofRat q ≠ .nan := by
  unfold Double.ofRat
  split
  · simp
  · dsimp only
    split <;> simp

theorem Double.zero_eq : (0 : Double) = .fin 0 := by decide!

theorem Double.four_eq : (4 : Double) = .fin 4 := by decide!

theorem Double.div_four_eq_nan (x : Double) : x / 4 = .nan ↔ x = .nan := by
  rw [Double.four_eq]
  show Double.div x (.fin 4) = .nan ↔ x = .nan
  cases x with
  | nan => simp [Double.div]
  | inf s => simp [Double.div]
  | fin q => simp [Double.div, Double.ofRat_ne_nan]

theorem round_eq_nan (x : Double) : Math.round x = .nan ↔ x = .nan := by
  cases x <;> simp [Math.round]

theorem max_zero_eq_nan (x : Double) : Math.max 0 x = .nan ↔ x = .nan := by
  rw [Double.zero_eq]
  cases x with
  | nan => simp [Math.max]
  | inf s =>
    simp only [Math.max]
    split <;> simp
  | fin q =>
    simp only [Math.max]
    split <;> simp

theorem max_zero_nonneg (x : Double) (hx : x ≠ .nan) : 0 ≤ Math.max 0 x := by
  rw [Double.zero_eq]
  cases x with
  | nan => exact absurd rfl hx
  | inf s =>
    simp only [Math.max]
    split
    · assumption
    · show Double.le (.fin 0) (.fin 0) = true
      simp [Double.le]
  | fin q =>
    simp only [Math.max]
    split
    · assumption
    · show Double.le (.fin 0) (.fin 0) = true
      simp [Double.le]

/-- C3, counterexample: with weight `1e308` typed into the form (a finite
    number that passes validation) the sums overflow, the residual is
    `Infinity - Infinity` and `carbsGrams` is `NaN`, which is not `>= 0`. -/
theorem handleCalculate_huge_weight_carbs_nan :
    (Number hugeWeight.state.weightKg).isFinite = true ∧
    (Number hugeWeight.state.age).truthy = true ∧
    (Number hugeWeight.state.weightKg).truthy = true ∧
    (Number hugeWeight.state.heightCm).truthy = true ∧
    (handleCalculate hugeWeight).state.result =
      some { bmr := .inf false, tdee := .inf false, suggested := .inf false,
             proteinGrams := .inf false, fatGrams := .inf false, carbsGrams := .nan,
             goal := "maintain", activity := "moderate" } ∧
    ¬ ((0 : Double) ≤ .nan) := by
  decide!

/-- C3, amended: for every input that passes validation, in the arithmetic of
    the program, `proteinGrams = Math.round(2 * weightKg)`,
    `fatGrams = Math.round(Math.round(suggested * 0.25) / 9)` and `carbsGrams` is
    `Math.max(0, Math.round(residual / 4))` for the residual
    `suggested - (proteinGrams * 4 + Math.round(suggested * 0.25))`. `carbsGrams`
    is `NaN` exactly when the residual is, and otherwise it is `>= 0`. -/
theorem handleCalculate_macros (w : World) (a wt h : Double)
    (hage : Number w.state.age = a) (hweight : Number w.state.weightKg = wt)
    (hheight : Number w.state.heightCm = h)
    (ha : a.truthy = true) (hwt : wt.truthy = true) (hh : h.truthy = true) :
    ∃ r : Result, (handleCalculate w).state.result = some r ∧
      r.proteinGrams = Math.round (2 * wt) ∧
      r.fatGrams = Math.round (Math.round (r.suggested * 0.25) / 9) ∧
      r.carbsGrams = Math.max 0 (Math.round
        ((r.suggested - (r.proteinGrams * 4 + Math.round (r.suggested * 0.25))) / 4)) ∧
      (r.carbsGrams = .nan ↔
        r.suggested - (r.proteinGrams * 4 + Math.round (r.suggested * 0.25)) = .nan) ∧
      (r.carbsGrams ≠ .nan → 0 ≤ r.carbsGrams) := by
  refine ⟨_, handleCalculate_result_of_valid w a wt h hage hweight hheight ha hwt hh,
    ?_, ?_, ?_, ?_, ?_⟩
  · simp only [calcResult]
  · simp only [calcResult]
  · simp only [calcResult]
  · simp only [calcResult]
    rw [max_zero_eq_nan, round_eq_nan, Double.div_four_eq_nan]
  · simp only [calcResult]
    intro hnum
    apply max_zero_nonneg
    intro hnan
    exact hnum ((max_zero_eq_nan _).mpr hnan)

theorem handleCalculate_macros_witness :
    ∃ r : Result, (handleCalculate (scenario "maintain")).state.result = some r ∧
      r.suggested = 2759 ∧ r.proteinGrams = 160 ∧ r.fatGrams = 77 ∧ r.carbsGrams = 357 ∧
      (0 : Double) ≤ r.carbsGrams := by
  obtain ⟨r, hr, hp, hf, hc, _, hpos⟩ :=
    handleCalculate_macros (scenario "maintain") 30 80 180
      (by decide!) (by decide!) (by decide!) (by decide!) (by decide!) (by decide!)
  have hs : (handleCalculate (scenario "maintain")).state.result.map (fun x => x.suggested) =
      some 2759 := by
    decide!
  rw [hr] at hs
  have hs1 : r.suggested = 2759 := by simpa using hs
  have hp1 : r.proteinGrams = 160 := by rw [hp]; decide!
  have hc1 : r.carbsGrams = 357 := by rw [hc, hs1, hp1]; decide!
  refine ⟨r, hr, hs1, hp1, ?_, hc1, hpos ?_⟩
  · rw [hf, hs1]; decide!
  · rw [hc1]; decide!

theorem truthy_eq_false_iff (n : Double) : n.truthy = false ↔ Unusable n := by
  cases n with
  | nan => simp [Double.truthy, Unusable]
  | inf s => simp [Double.truthy, Unusable]
  | fin q => simp [Double.truthy, Unusable]

/-- C4, counterexample: with weight -80 typed into the form (age 30, height
    180) `handleCalculate` shows no validation message, produces a result and
    writes the `calorieTracker` entry. -/
theorem handleCalculate_negative_weight_computes :
    Number negativeWeight.state.weightKg = .fin (-80) ∧
    (handleCalculate negativeWeight).state.notes = "" ∧
    negativeWeight.state.result = none ∧
    (handleCalculate negativeWeight).state.result =
      some { bmr := .fin 180, tdee := .fin 279, suggested := .fin 279,
             proteinGrams := .fin (-160), fatGrams := .fin 8, carbsGrams := .fin 212,
             goal := "maintain", activity := "moderate" } ∧
    negativeWeight.store.calorieTracker = none ∧
    (handleCalculate negativeWeight).store.calorieTracker ≠ none := by
  decide!

/-- C4, amended: `handleCalculate` computes exactly when `Number` of age, weight
    and height are all neither `NaN` nor zero; negative numbers and infinities
    pass. When one of them is `NaN` or zero (an empty field converts to zero) it
    only sets the validation message: the result, the rest of the state, the
    Local Store and the issued requests stay as they were. Otherwise it clears
    the message, sets a result and writes a `calorieTracker` entry. -/
theorem handleCalculate_validation (w : World) :
    Number (.str "") = .fin 0 ∧
    (Unusable (Number w.state.age) ∨ Unusable (Number w.state.weightKg) ∨
        Unusable (Number w.state.heightCm) →
      handleCalculate w = { w with state := { w.state with notes := validationMessage } }) ∧
    (¬ (Unusable (Number w.state.age) ∨ Unusable (Number w.state.weightKg) ∨
        Unusable (Number w.state.heightCm)) →
      ∃ r : Result, (handleCalculate w).state.result = some r ∧
        (handleCalculate w).state.notes = "" ∧
        (handleCalculate w).store.calorieTracker ≠ none) := by
  refine ⟨by decide!, ?_, ?_⟩
  · intro hbad
    simp only [← truthy_eq_false_iff] at hbad
    have hguard : (!(Number w.state.age).truthy || !(Number w.state.weightKg).truthy ||
        !(Number w.state.heightCm).truthy) = true := by
      rcases hbad with e | e | e <;> simp [e]
    simp only [handleCalculate, hguard, if_true, validationMessage]
  · intro hgood
    simp only [← truthy_eq_false_iff, not_or, Bool.not_eq_false] at hgood
    obtain ⟨h1, h2, h3⟩ := hgood
    simp [handleCalculate, h1, h2, h3]

theorem handleCalculate_validation_witness :
    handleCalculate (typed "" "80" "180" "maintain") =
      { typed "" "80" "180" "maintain" with
        state := { (typed "" "80" "180" "maintain").state with notes := validationMessage } } ∧
    handleCalculate (typed "30" "1e-400" "180" "maintain") =
      { typed "30" "1e-400" "180" "maintain" with
        state := { (typed "30" "1e-400" "180" "maintain").state with
                   notes := validationMessage } } ∧
    (∃ r : Result, (handleCalculate negativeWeight).state.result = some r ∧
      (handleCalculate negativeWeight).state.notes = "" ∧
      (handleCalculate negativeWeight).store.calorieTracker ≠ none) ∧
    ∃ r : Result, (handleCalculate (typed "Infinity" "80" "180" "maintain")).state.result =
        some r ∧
      (handleCalculate (typed "Infinity" "80" "180" "maintain")).state.notes = "" ∧
      (handleCalculate (typed "Infinity" "80" "180" "maintain")).store.calorieTracker ≠ none :=
  ⟨(handleCalculate_validation (typed "" "80" "180" "maintain")).2.1
      (Or.inl (Or.inr (by decide!))),
   (handleCalculate_validation (typed "30" "1e-400" "180" "maintain")).2.1
      (Or.inr (Or.inl (Or.inr (by decide!)))),
   (handleCalculate_validation negativeWeight).2.2 (by
      unfold Unusable
      decide!),
   (handleCalculate_validation (typed "Infinity" "80" "180" "maintain")).2.2 (by
      unfold Unusable
      decide!)⟩

/-- C8, counterexample: with the goal `recomp`, which is none of maintain, cut
    and bulk, the scenario input is not rejected and is not treated as maintain:
    the result has `tdee = 2759` and `suggested = 3173`. -/
theorem handleCalculate_unrecognised_goal_not_maintain :
    (handleCalculate (scenario "recomp")).state.result.map (fun r => (r.tdee, r.suggested)) =
      some (.fin 2759, .fin 3173) ∧
    ¬ ((handleCalculate (scenario "recomp")).state.result = none ∨
       ∃ r : Result, (handleCalculate (scenario "recomp")).state.result = some r ∧
         r.suggested = r.tdee) := by
  have hv : (handleCalculate (scenario "recomp")).state.result.map
      (fun r => (r.tdee, r.suggested)) = some (.fin 2759, .fin 3173) := by
    decide!
  refine ⟨hv, ?_⟩
  rintro (hnone | ⟨r, hr, heq⟩)
  · rw [hnone] at hv
    simp at hv
  · rw [hr] at hv
    simp only [Option.map_some', Option.some.injEq, Prod.mk.injEq] at hv
    rw [heq, hv.1] at hv
    have hbad := hv.2
    simp only [Double.fin.injEq] at hbad
    norm_num at hbad

/-- C8, amended: for every input that passes validation and whose goal is none
    of maintain, cut and bulk, `handleCalculate` does not reject: it produces a
    result whose `suggested` is the value of the bulk branch,
    `Math.round(tdee * 1.15)` in the arithmetic of the program. -/
theorem handleCalculate_unrecognised_goal (w : World) (a wt h : Double)
    (hage : Number w.state.age = a) (hweight : Number w.state.weightKg = wt)
    (hheight : Number w.state.heightCm = h)
    (ha : a.truthy = true) (hwt : wt.truthy = true) (hh : h.truthy = true)
    (hmaintain : w.state.goal ≠ "maintain") (hcut : w.state.goal ≠ "cut")
    (_hbulk : w.state.goal ≠ "bulk") :
    ∃ r : Result, (handleCalculate w).state.result = some r ∧
      r.suggested = Math.round (r.tdee * 1.15) := by
  refine ⟨_, handleCalculate_result_of_valid w a wt h hage hweight hheight ha hwt hh, ?_⟩
  simp [calcResult, hmaintain, hcut]

theorem handleCalculate_unrecognised_goal_witness :
    (∃ r : Result, (handleCalculate (scenario "recomp")).state.result = some r ∧
      r.suggested = Math.round (r.tdee * 1.15)) ∧
    ∃ r : Result, (handleCalculate (typed "30" "74" "170" "recomp")).state.result = some r ∧
      r.tdee = 2570 ∧ r.suggested = 2955 := by
  constructor
  · exact handleCalculate_unrecognised_goal (scenario "recomp") 30 80 180
      (by decide!) (by decide!) (by decide!) (by decide!) (by decide!) (by decide!)
      (by decide!) (by decide!) (by decide!)
  · obtain ⟨r, hr, hs⟩ :=
      handleCalculate_unrecognised_goal (typed "30" "74" "170" "recomp") 30 74 170
        (by decide!) (by decide!) (by decide!) (by decide!) (by decide!) (by decide!)
        (by decide!) (by decide!) (by decide!)
    have ht : (handleCalculate (typed "30" "74" "170" "recomp")).state.result.map
        (fun x => x.tdee) = some 2570 := by
      decide!
    rw [hr] at ht
    have ht1 : r.tdee = 2570 := by simpa using ht
    refine ⟨r, hr, ht1, ?_⟩
    rw [hs, ht1]
    decide!

/-! ## Rounding to the nearest double -/

theorem Double.pow2_eq (e : ℤ) : Double.pow2 e = (2 : ℚ) ^ e := by
  unfold Double.pow2
  split
  · rename_i he
    have hcast : ((e.toNat : ℕ) : ℤ) = e := Int.toNat_of_nonneg he
    rw [← hcast, zpow_natCast]
    push_cast
    rw [hcast]
  · rename_i he
    have hneg : 0 ≤ -e := by omega
    have hcast : (((-e).toNat : ℕ) : ℤ) = -e := Int.toNat_of_nonneg hneg
    have hexp : e = -(((-e).toNat : ℕ) : ℤ) := by omega
    rw [hexp, zpow_neg, zpow_natCast]
    push_cast
    rw [hcast, one_div]
    simp

theorem Double.pow2_pos (e : ℤ) : 0 < Double.pow2 e := by
  rw [Double.pow2_eq]
  positivity

theorem Double.pow2_le_pow2 {a b : ℤ} (hab : a ≤ b) : Double.pow2 a ≤ Double.pow2 b := by
  rw [Double.pow2_eq, Double.pow2_eq]
  exact zpow_le_zpow_right₀ (by norm_num) hab

theorem Double.log2Aux_spec (fuel : ℕ) : ∀ n : ℕ, n ≤ fuel → 1 ≤ n →
    2 ^ Double.log2Aux fuel n ≤ n ∧ n < 2 ^ (Double.log2Aux fuel n + 1) := by
  induction fuel with
  | zero => intro n h0 h1; omega
  | succ fuel ih =>
    intro n hn h1
    unfold Double.log2Aux
    split
    · rename_i h2
      have hhalf : n / 2 ≤ fuel := by omega
      have hone : 1 ≤ n / 2 := by omega
      obtain ⟨hlo, hhi⟩ := ih (n / 2) hhalf hone
      constructor
      · rw [pow_succ]
        omega
      · rw [pow_succ]
        omega
    · rename_i h2
      have : n = 1 := by omega
      subst this
      simp

theorem Double.log2_spec (n : ℕ) (hn : 1 ≤ n) :
    2 ^ Double.log2 n ≤ n ∧ n < 2 ^ (Double.log2 n + 1) :=
  Double.log2Aux_spec n n (le_refl n) hn

theorem Double.exponent_le (q : ℚ) (hq : 0 < q) : Double.pow2 (Double.exponent q) ≤ q := by
  unfold Double.exponent
  dsimp only
  split
  · assumption
  · have hnum : 0 < q.num := Rat.num_pos.mpr hq
    have hn1 : 1 ≤ q.num.natAbs := by omega
    have hd1 : 1 ≤ q.den := q.den_pos
    obtain ⟨hnlo, _⟩ := Double.log2_spec q.num.natAbs hn1
    obtain ⟨_, hdhi⟩ := Double.log2_spec q.den hd1
    have hqeq : (q.num.natAbs : ℚ) / (q.den : ℚ) = q := by
      have habs : ((q.num.natAbs : ℕ) : ℚ) = (q.num : ℚ) := by
        rw [← Int.cast_natCast, Int.natAbs_of_nonneg (le_of_lt hnum)]
      rw [habs]
      exact Rat.num_div_den q
    have hnloQ : ((2 : ℚ) ^ Double.log2 q.num.natAbs) ≤ (q.num.natAbs : ℚ) := by
      exact_mod_cast hnlo
    have hdhiQ : (q.den : ℚ) ≤ (2 : ℚ) ^ (Double.log2 q.den + 1) := by
      exact_mod_cast le_of_lt hdhi
    have hdpos : (0 : ℚ) < (q.den : ℚ) := by exact_mod_cast q.den_pos
    rw [Double.pow2_eq]
    have hexp : ((Double.log2 q.num.natAbs : ℤ) - (Double.log2 q.den : ℤ) - 1) =
        (Double.log2 q.num.natAbs : ℤ) - ((Double.log2 q.den + 1 : ℕ) : ℤ) := by
      push_cast
      ring
    rw [hexp, zpow_sub₀ (by norm_num : (2 : ℚ) ≠ 0), zpow_natCast, zpow_natCast]
    have hpow_pos : (0 : ℚ) < (2 : ℚ) ^ (Double.log2 q.den + 1) := by positivity
    calc (2 : ℚ) ^ Double.log2 q.num.natAbs / (2 : ℚ) ^ (Double.log2 q.den + 1)
        ≤ (q.num.natAbs : ℚ) / (2 : ℚ) ^ (Double.log2 q.den + 1) := by
          exact div_le_div_of_nonneg_right hnloQ (le_of_lt hpow_pos)
      _ ≤ (q.num.natAbs : ℚ) / (q.den : ℚ) := by
          exact div_le_div_of_nonneg_left (by positivity) hdpos hdhiQ
      _ = q := hqeq

theorem Double.exponent_lt_of_lt (q : ℚ) (hq : 0 < q) (b : ℤ) (hb : q < (2 : ℚ) ^ b) :
    Double.exponent q < b := by
  by_contra hge
  have hle : b ≤ Double.exponent q := by omega
  have h1 := Double.pow2_le_pow2 hle
  have h2 := Double.exponent_le q hq
  rw [Double.pow2_eq] at h1
  linarith

theorem Double.roundHalfEven_int (z : ℤ) : Double.roundHalfEven (z : ℚ) = z := by
  unfold Double.roundHalfEven
  simp

theorem Double.roundHalfEven_near (m : ℚ) : |(Double.roundHalfEven m : ℚ) - m| ≤ 1 / 2 := by
  unfold Double.roundHalfEven
  have hlo := Int.floor_le m
  have hhi := Int.lt_floor_add_one m
  dsimp only
  split
  · rw [abs_le]; constructor <;> linarith
  · split
    · rw [abs_le]; push_cast; constructor <;> linarith
    · rename_i h1 h2
      have heq : m - ⌊m⌋ = 1 / 2 := le_antisymm (not_lt.mp h2) (not_lt.mp h1)
      split
      · rw [abs_le]; constructor <;> linarith
      · rw [abs_le]; push_cast; constructor <;> linarith

theorem Double.ulp_pos (q : ℚ) : 0 < Double.ulp q := Double.pow2_pos _

theorem Double.ofRat_zero : Double.ofRat 0 = .fin 0 := by
  simp [Double.ofRat]

theorem Double.pow2_1024_gt : (2 : ℚ) ^ (54 : ℕ) < Double.pow2 1024 := by
  rw [Double.pow2_eq]
  have h : (2 : ℚ) ^ (54 : ℕ) = (2 : ℚ) ^ (54 : ℤ) := by norm_cast
  rw [h]
  exact zpow_lt_zpow_right₀ (by norm_num) (by norm_num)

/-- A multiple of the spacing around it, below the overflow threshold, is a
    double: rounding leaves it as it is. -/
theorem Double.ofRat_of_multiple (q : ℚ) (z : ℤ) (hz : q = z * Double.ulp q)
    (hq : |q| < (2 : ℚ) ^ (54 : ℕ)) : Double.ofRat q = .fin q := by
  unfold Double.ofRat
  split
  · rename_i h0
    rw [h0]
  · have hu := Double.ulp_pos q
    have hdiv : q / Double.ulp q = z := by
      rw [div_eq_iff (ne_of_gt hu)]
      exact hz
    dsimp only
    rw [hdiv, Double.roundHalfEven_int, ← hz]
    have hnot : ¬ Double.pow2 1024 ≤ |q| := by
      have := Double.pow2_1024_gt
      linarith
    simp [hnot]

/-- An integer below `2 ^ 53` in magnitude, divided by `2 ^ k` for `k ≤ 2`, is
    a double. -/
theorem Double.ofRat_dyadic (z : ℤ) (k : ℕ) (hk : k ≤ 2) (hz : |z| < 2 ^ 53) :
    Double.ofRat ((z : ℚ) / 2 ^ k) = .fin ((z : ℚ) / 2 ^ k) := by
  by_cases hz0 : z = 0
  · subst hz0
    simp [Double.ofRat_zero]
  set q : ℚ := (z : ℚ) / 2 ^ k with hqdef
  have hkpos : (0 : ℚ) < 2 ^ k := by positivity
  have hzabs : |(z : ℚ)| < 2 ^ 53 := by
    have : ((|z| : ℤ) : ℚ) < ((2 ^ 53 : ℤ) : ℚ) := by exact_mod_cast hz
    simpa using this
  have hqabs : |q| = |(z : ℚ)| / 2 ^ k := by
    rw [hqdef, abs_div, abs_of_pos hkpos]
  have hqpos : 0 < |q| := by
    rw [hqabs]
    apply div_pos _ hkpos
    exact abs_pos.mpr (by exact_mod_cast hz0)
  have hqlt : |q| < (2 : ℚ) ^ ((53 : ℤ) - k) := by
    rw [hqabs, zpow_sub₀ (by norm_num : (2 : ℚ) ≠ 0), zpow_natCast]
    have : ((2 : ℚ) ^ (53 : ℤ)) = 2 ^ 53 := by norm_cast
    rw [this]
    exact div_lt_div_of_pos_right hzabs hkpos
  have hexp := Double.exponent_lt_of_lt |q| hqpos _ hqlt
  -- the exponent of the spacing stays below `-k`
  set e' : ℤ := max (Double.exponent |q|) (-1022) with he'
  have he'le : e' ≤ 52 - k := by
    rw [he']
    apply max_le
    · omega
    · omega
  have hulp : Double.ulp q = (2 : ℚ) ^ (e' - 52) := by
    unfold Double.ulp
    rw [Double.pow2_eq]
  -- the quotient by the spacing is an integer
  have ht : 0 ≤ 52 - e' - k := by omega
  have hmul : q = ((z * 2 ^ (52 - e' - (k : ℤ)).toNat : ℤ) : ℚ) * Double.ulp q := by
    rw [hulp, hqdef]
    push_cast
    have hcast : (((52 - e' - (k : ℤ)).toNat : ℕ) : ℤ) = 52 - e' - k := Int.toNat_of_nonneg ht
    have hp : ((2 : ℚ) ^ (52 - e' - (k : ℤ)).toNat) = (2 : ℚ) ^ (52 - e' - (k : ℤ)) := by
      rw [← zpow_natCast, hcast]
    rw [hp, mul_assoc, ← zpow_add₀ (by norm_num : (2 : ℚ) ≠ 0)]
    have hsum : 52 - e' - (k : ℤ) + (e' - 52) = -(k : ℤ) := by ring
    rw [hsum, zpow_neg, zpow_natCast, div_eq_mul_inv]
  have hq54 : |q| < (2 : ℚ) ^ (54 : ℕ) := by
    have h1 : |q| ≤ |(z : ℚ)| := by
      rw [hqabs]
      apply div_le_self (abs_nonneg _)
      exact one_le_pow₀ (by norm_num)
    have h2 : (2 : ℚ) ^ 53 < 2 ^ 54 := by norm_num
    linarith
  exact Double.ofRat_of_multiple q _ hmul hq54

/-- Below `2 ^ 48` in magnitude a rational rounds to a finite double at most
    `1 / 32` away. -/
theorem Double.ofRat_near (q : ℚ) (hq : |q| ≤ 2 ^ 48) :
    ∃ y : ℚ, Double.ofRat q = .fin y ∧ |y - q| ≤ 1 / 32 := by
  by_cases hq0 : q = 0
  · subst hq0
    exact ⟨0, Double.ofRat_zero, by norm_num⟩
  have hqpos : 0 < |q| := abs_pos.mpr hq0
  have hexp : Double.exponent |q| < 49 := by
    apply Double.exponent_lt_of_lt |q| hqpos
    have : ((2 : ℚ) ^ (49 : ℤ)) = 2 ^ 49 := by norm_cast
    rw [this]
    have : (2 : ℚ) ^ 48 < 2 ^ 49 := by norm_num
    linarith
  have hu := Double.ulp_pos q
  have hule : Double.ulp q ≤ 1 / 16 := by
    unfold Double.ulp
    have hmax : max (Double.exponent |q|) (-1022) - 52 ≤ -4 := by
      have : max (Double.exponent |q|) (-1022) ≤ 48 := max_le (by omega) (by norm_num)
      omega
    have := Double.pow2_le_pow2 hmax
    have h4 : Double.pow2 (-4) = 1 / 16 := by
      rw [Double.pow2_eq]
      norm_num
    rw [h4] at this
    exact this
  have hnear := Double.roundHalfEven_near (q / Double.ulp q)
  set n : ℤ := Double.roundHalfEven (q / Double.ulp q) with hn
  have herr : |(n : ℚ) * Double.ulp q - q| ≤ 1 / 32 := by
    have hfac : (n : ℚ) * Double.ulp q - q = ((n : ℚ) - q / Double.ulp q) * Double.ulp q := by
      field_simp
    rw [hfac, abs_mul, abs_of_pos hu]
    calc |(n : ℚ) - q / Double.ulp q| * Double.ulp q
        ≤ (1 / 2) * (1 / 16) := by
          apply mul_le_mul hnear hule (le_of_lt hu) (by norm_num)
      _ = 1 / 32 := by norm_num
  refine ⟨(n : ℚ) * Double.ulp q, ?_, herr⟩
  unfold Double.ofRat
  simp only [hq0, if_false]
  have hsmall : ¬ Double.pow2 1024 ≤ |(n : ℚ) * Double.ulp q| := by
    have h1 : |(n : ℚ) * Double.ulp q| ≤ |q| + 1 / 32 := by
      have := abs_sub_abs_le_abs_sub ((n : ℚ) * Double.ulp q) q
      linarith
    have h2 := Double.pow2_1024_gt
    have h3 : (2 : ℚ) ^ 48 + 1 / 32 < 2 ^ (54 : ℕ) := by norm_num
    linarith
  rw [← hn]
  simp [hsmall]

/-! ## The energy balance of the macros -/

theorem Double.quarter_eq : (0.25 : Double) = .fin (1 / 4) := by decide!

theorem Double.nine_eq : (9 : Double) = .fin 9 := by decide!

theorem Double.fin_mul (x y : ℚ) : (Double.fin x) * (Double.fin y) = Double.ofRat (x * y) := rfl

theorem Double.fin_add (x y : ℚ) : (Double.fin x) + (Double.fin y) = Double.ofRat (x + y) := rfl

theorem Double.fin_sub (x y : ℚ) : (Double.fin x) - (Double.fin y) = Double.ofRat (x + -y) := rfl

theorem Double.fin_div (x y : ℚ) (hy : y ≠ 0) :
    (Double.fin x) / (Double.fin y) = Double.ofRat (x / y) := by
  show Double.div (.fin x) (.fin y) = _
  simp [Double.div, hy]

theorem Double.ofRat_int (z : ℤ) (hz : |z| < 2 ^ 53) : Double.ofRat (z : ℚ) = .fin z := by
  have h := Double.ofRat_dyadic z 0 (by norm_num) hz
  simpa using h

theorem Double.ofRat_int_quarter (z : ℤ) (hz : |z| < 2 ^ 53) :
    Double.ofRat ((z : ℚ) / 4) = .fin ((z : ℚ) / 4) := by
  have h := Double.ofRat_dyadic z 2 (by norm_num) hz
  norm_num at h
  exact h

theorem round_fin_int (x : Double) (q : ℚ) (hx : Math.round x = .fin q) : ∃ z : ℤ, q = z := by
  cases x with
  | nan => simp [Math.round] at hx
  | inf s => simp [Math.round] at hx
  | fin y =>
    simp only [Math.round, Double.fin.injEq] at hx
    exact ⟨_, hx.symm⟩

theorem ninth_slack (n : ℤ) :
    -4 ≤ 9 * ⌊(n : ℚ) / 9 + 1 / 2⌋ - n ∧ 9 * ⌊(n : ℚ) / 9 + 1 / 2⌋ - n ≤ 4 := by
  have hle := Int.floor_le ((n : ℚ) / 9 + 1 / 2)
  have hlt := Int.lt_floor_add_one ((n : ℚ) / 9 + 1 / 2)
  have h1 : (18 * ⌊(n : ℚ) / 9 + 1 / 2⌋ : ℤ) ≤ 2 * n + 9 := by
    have : ((18 : ℚ) * ⌊(n : ℚ) / 9 + 1 / 2⌋) ≤ 2 * n + 9 := by linarith
    exact_mod_cast this
  have h2 : 2 * n + 9 < (18 * ⌊(n : ℚ) / 9 + 1 / 2⌋ + 18 : ℤ) := by
    have : (2 * n + 9 : ℚ) < 18 * ⌊(n : ℚ) / 9 + 1 / 2⌋ + 18 := by linarith
    exact_mod_cast this
  constructor <;> omega

theorem quarter_slack (n : ℤ) :
    -1 ≤ 4 * ⌊(n : ℚ) / 4 + 1 / 2⌋ - n ∧ 4 * ⌊(n : ℚ) / 4 + 1 / 2⌋ - n ≤ 2 := by
  have hle := Int.floor_le ((n : ℚ) / 4 + 1 / 2)
  have hlt := Int.lt_floor_add_one ((n : ℚ) / 4 + 1 / 2)
  have h1 : (4 * ⌊(n : ℚ) / 4 + 1 / 2⌋ : ℤ) ≤ n + 2 := by
    have : ((4 : ℚ) * ⌊(n : ℚ) / 4 + 1 / 2⌋) ≤ n + 2 := by linarith
    exact_mod_cast this
  have h2 : n + 2 < (4 * ⌊(n : ℚ) / 4 + 1 / 2⌋ + 4 : ℤ) := by
    have : (n + 2 : ℚ) < 4 * ⌊(n : ℚ) / 4 + 1 / 2⌋ + 4 := by linarith
    exact_mod_cast this
  constructor <;> omega

/-- A value within `1 / 32` of `n / 9` rounds to the same integer as `n / 9`:
    a ninth of an integer is at least `1 / 18` away from every half. -/
theorem floor_ninth_stable (n : ℤ) (y : ℚ) (hy : |y - (n : ℚ) / 9| ≤ 1 / 32) :
    ⌊y + 1 / 2⌋ = ⌊(n : ℚ) / 9 + 1 / 2⌋ := by
  have hle := Int.floor_le ((n : ℚ) / 9 + 1 / 2)
  have hlt := Int.lt_floor_add_one ((n : ℚ) / 9 + 1 / 2)
  set k : ℤ := ⌊(n : ℚ) / 9 + 1 / 2⌋ with hk
  have h1 : (18 * k : ℤ) ≤ 2 * n + 9 := by
    have : ((18 : ℚ) * k) ≤ 2 * n + 9 := by linarith
    exact_mod_cast this
  have h2 : 2 * n + 9 < (18 * k + 18 : ℤ) := by
    have : (2 * n + 9 : ℚ) < 18 * k + 18 := by linarith
    exact_mod_cast this
  have h3 : (18 * k + 1 : ℤ) ≤ 2 * n + 9 := by omega
  have h4 : (2 * n + 9 : ℤ) ≤ 18 * k + 17 := by omega
  have h3q : ((18 : ℚ) * k + 1) ≤ 2 * n + 9 := by exact_mod_cast h3
  have h4q : ((2 : ℚ) * n + 9) ≤ 18 * k + 17 := by exact_mod_cast h4
  obtain ⟨hlo, hhi⟩ := abs_le.mp hy
  rw [Int.floor_eq_iff]
  constructor <;> linarith

/-- The macro lines of `handleCalculate` on integers of magnitude at most
    `10 ^ 15`: every operation but the division by 9 is exact, and that one
    rounds to the same integer as the exact quotient. -/
theorem macros_of_bounded (s p : ℤ) (hs : |s| ≤ 10 ^ 15) (hp : |p| ≤ 10 ^ 15) :
    Math.round ((Double.fin s) * 0.25) = .fin (⌊(s : ℚ) / 4 + 1 / 2⌋ : ℤ) ∧
    Math.round (Math.round ((Double.fin s) * 0.25) / 9) =
      .fin (⌊((⌊(s : ℚ) / 4 + 1 / 2⌋ : ℤ) : ℚ) / 9 + 1 / 2⌋ : ℤ) ∧
    Math.round (((Double.fin s) - ((Double.fin p) * 4 + Math.round ((Double.fin s) * 0.25))) / 4) =
      .fin (⌊((s - (p * 4 + ⌊(s : ℚ) / 4 + 1 / 2⌋) : ℤ) : ℚ) / 4 + 1 / 2⌋ : ℤ) := by
  obtain ⟨hs1, hs2⟩ := abs_le.mp hs
  obtain ⟨hp1, hp2⟩ := abs_le.mp hp
  have hq := quarter_slack s
  set F : ℤ := ⌊(s : ℚ) / 4 + 1 / 2⌋ with hF
  have hfat : Math.round ((Double.fin s) * 0.25) = .fin (F : ℚ) := by
    rw [Double.quarter_eq, Double.fin_mul]
    have hmul : (s : ℚ) * (1 / 4) = (s : ℚ) / 4 := by ring
    rw [hmul, Double.ofRat_int_quarter s (by rw [abs_lt]; constructor <;> omega)]
    rfl
  refine ⟨hfat, ?_, ?_⟩
  · rw [hfat, Double.nine_eq, Double.fin_div _ _ (by norm_num)]
    have hFabs : |((F : ℚ)) / 9| ≤ 2 ^ 48 := by
      rw [abs_le]
      have h1 : (-(2 ^ 48 : ℤ)) ≤ F := by omega
      have h2 : F ≤ (2 ^ 48 : ℤ) := by omega
      have h1q : (-(2 ^ 48 : ℚ)) ≤ F := by exact_mod_cast h1
      have h2q : (F : ℚ) ≤ 2 ^ 48 := by exact_mod_cast h2
      constructor <;> linarith
    obtain ⟨y, hy, hnear⟩ := Double.ofRat_near ((F : ℚ) / 9) hFabs
    rw [hy]
    show Double.fin ((⌊y + 1 / 2⌋ : ℤ) : ℚ) = _
    rw [floor_ninth_stable F y hnear]
  · rw [hfat, Double.four_eq, Double.fin_mul]
    have hp4 : (p : ℚ) * 4 = ((p * 4 : ℤ) : ℚ) := by push_cast; ring
    rw [hp4, Double.ofRat_int (p * 4) (by rw [abs_lt]; constructor <;> omega), Double.fin_add]
    have hsum : ((p * 4 : ℤ) : ℚ) + (F : ℚ) = ((p * 4 + F : ℤ) : ℚ) := by push_cast; ring
    rw [hsum, Double.ofRat_int (p * 4 + F) (by rw [abs_lt]; constructor <;> omega),
      Double.fin_sub]
    have hdiff : (s : ℚ) + -((p * 4 + F : ℤ) : ℚ) = ((s - (p * 4 + F) : ℤ) : ℚ) := by
      push_cast; ring
    rw [hdiff, Double.ofRat_int (s - (p * 4 + F)) (by rw [abs_lt]; constructor <;> omega),
      Double.fin_div _ _ (by norm_num),
      Double.ofRat_int_quarter (s - (p * 4 + F)) (by rw [abs_lt]; constructor <;> omega)]
    rfl

theorem max_zero_of_nonneg (c : ℤ) (hc : 0 ≤ c) : Math.max 0 (.fin (c : ℚ)) = .fin (c : ℚ) := by
  rw [Double.zero_eq]
  have hle : (Double.fin 0 ≤ Double.fin (c : ℚ)) := by
    show Double.le (.fin 0) (.fin (c : ℚ)) = true
    simp only [Double.le, decide_eq_true_eq]
    exact_mod_cast hc
  simp [Math.max, hle]

/-- C9, counterexample: with height `1e17` typed into the form the input
    passes validation, `suggested`, `proteinGrams`, `fatGrams` and `carbsGrams`
    are finite, the residual is positive, and the energy of the macros exceeds
    `suggested` by 12 kcal, which is more than 6. -/
theorem handleCalculate_huge_height_balance :
    (Number hugeHeight.state.age).truthy = true ∧
    (Number hugeHeight.state.weightKg).truthy = true ∧
    (Number hugeHeight.state.heightCm).truthy = true ∧
    (handleCalculate hugeHeight).state.result.map
        (fun r => (r.suggested, r.proteinGrams, r.fatGrams, r.carbsGrams)) =
      some (.fin 968750000000001024, .fin 160, .fin 26909722222222252,
            .fin 181640625000000032) ∧
    (0 : ℤ) ≤ 968750000000001024 - 160 * 4 - ⌊(968750000000001024 : ℚ) * 0.25 + 1 / 2⌋ ∧
    ((160 : ℤ) * 4 + 26909722222222252 * 9 + 181640625000000032 * 4) - 968750000000001024 = 12 ∧
    ¬ ((12 : ℤ) ≤ 6) := by
  refine ⟨by decide!, by decide!, by decide!, by decide!, ?_, by norm_num, by norm_num⟩
  have hfloor : ⌊(968750000000001024 : ℚ) * 0.25 + 1 / 2⌋ = 242187500000000256 := by
    rw [Int.floor_eq_iff]
    constructor <;> norm_num
  rw [hfloor]
  norm_num

/-- C9, amended: for every input that passes validation whose `suggested` and
    `proteinGrams` are finite and at most `10 ^ 15` in magnitude and whose
    carbohydrate residual `suggested - proteinGrams * 4 - round(suggested * 0.25)`
    is not negative, `fatGrams` and `carbsGrams` are finite and the energy of the
    macros `proteinGrams * 4 + fatGrams * 9 + carbsGrams * 4` differs from
    `suggested` by at least -5 and at most 6 kcal. -/
theorem handleCalculate_energy_balance (w : World) (a wt h : Double)
    (hage : Number w.state.age = a) (hweight : Number w.state.weightKg = wt)
    (hheight : Number w.state.heightCm = h)
    (ha : a.truthy = true) (hwt : wt.truthy = true) (hh : h.truthy = true) :
    ∃ r : Result, (handleCalculate w).state.result = some r ∧
      ∀ s p : ℚ, r.suggested = .fin s → r.proteinGrams = .fin p →
        |s| ≤ 10 ^ 15 → |p| ≤ 10 ^ 15 →
        0 ≤ s - p * 4 - ⌊s * 0.25 + 1 / 2⌋ →
        ∃ f c : ℚ, r.fatGrams = .fin f ∧ r.carbsGrams = .fin c ∧
          -5 ≤ (p * 4 + f * 9 + c * 4) - s ∧ (p * 4 + f * 9 + c * 4) - s ≤ 6 := by
  refine ⟨_, handleCalculate_result_of_valid w a wt h hage hweight hheight ha hwt hh, ?_⟩
  intro s p hS hP hs hp hres
  simp only [calcResult] at hS hP ⊢
  obtain ⟨zs, rfl⟩ : ∃ z : ℤ, s = z := by
    split_ifs at hS <;> exact round_fin_int _ _ hS
  obtain ⟨zp, rfl⟩ : ∃ z : ℤ, p = z := round_fin_int _ _ hP
  rw [hS, hP]
  have hzs : |zs| ≤ 10 ^ 15 := by exact_mod_cast hs
  have hzp : |zp| ≤ 10 ^ 15 := by exact_mod_cast hp
  obtain ⟨_, hfat, hcarb⟩ := macros_of_bounded zs zp hzs hzp
  have hquarter : (zs : ℚ) * 0.25 = (zs : ℚ) / 4 := by norm_num; ring
  rw [hquarter] at hres
  set F : ℤ := ⌊(zs : ℚ) / 4 + 1 / 2⌋ with hF
  have hcc : 0 ≤ zs - (zp * 4 + F) := by
    have : (0 : ℚ) ≤ ((zs - (zp * 4 + F) : ℤ) : ℚ) := by
      push_cast
      linarith
    exact_mod_cast this
  have hninth := ninth_slack F
  have hfourth := quarter_slack (zs - (zp * 4 + F))
  have hcpos : 0 ≤ ⌊((zs - (zp * 4 + F) : ℤ) : ℚ) / 4 + 1 / 2⌋ := by omega
  refine ⟨((⌊(F : ℚ) / 9 + 1 / 2⌋ : ℤ) : ℚ),
    ((⌊((zs - (zp * 4 + F) : ℤ) : ℚ) / 4 + 1 / 2⌋ : ℤ) : ℚ), hfat, ?_, ?_, ?_⟩
  · rw [hcarb]
    exact max_zero_of_nonneg _ hcpos
  · have : (-5 : ℤ) ≤ (zp * 4 + ⌊(F : ℚ) / 9 + 1 / 2⌋ * 9 +
        ⌊((zs - (zp * 4 + F) : ℤ) : ℚ) / 4 + 1 / 2⌋ * 4) - zs := by omega
    exact_mod_cast this
  · have : (zp * 4 + ⌊(F : ℚ) / 9 + 1 / 2⌋ * 9 +
        ⌊((zs - (zp * 4 + F) : ℤ) : ℚ) / 4 + 1 / 2⌋ * 4) - zs ≤ (6 : ℤ) := by omega
    exact_mod_cast this

theorem handleCalculate_energy_balance_witness :
    ∃ r : Result, (handleCalculate (scenario "maintain")).state.result = some r ∧
      r.suggested = .fin 2759 ∧ r.proteinGrams = .fin 160 ∧
      ∃ f c : ℚ, r.fatGrams = .fin f ∧ r.carbsGrams = .fin c ∧
        -5 ≤ ((160 : ℚ) * 4 + f * 9 + c * 4) - 2759 ∧
        ((160 : ℚ) * 4 + f * 9 + c * 4) - 2759 ≤ 6 := by
  obtain ⟨r, hr, hbal⟩ :=
    handleCalculate_energy_balance (scenario "maintain") 30 80 180
      (by decide!) (by decide!) (by decide!) (by decide!) (by decide!) (by decide!)
  have hv : (handleCalculate (scenario "maintain")).state.result.map
      (fun x => (x.suggested, x.proteinGrams)) = some (.fin 2759, .fin 160) := by
    decide!
  rw [hr] at hv
  simp only [Option.map_some', Option.some.injEq, Prod.mk.injEq] at hv
  obtain ⟨hs, hp⟩ := hv
  have hfloor : ⌊(2759 : ℚ) * 0.25 + 1 / 2⌋ = 690 := by
    rw [Int.floor_eq_iff]
    constructor <;> norm_num
  exact ⟨r, hr, hs, hp, hbal 2759 160 hs hp (by norm_num) (by norm_num)
    (by rw [hfloor]; norm_num)⟩

/-! ## Saving, deleting and loading plans -/

theorem toDigits_ne_nil (n : Nat) : Nat.toDigits 10 n ≠ [] := by
  intro hnil
  have hlen := congrArg List.length hnil
  simp only [Nat.toDigits, Nat.toDigitsCore, List.length_nil] at hlen
  split at hlen
  · simp at hlen
  · rw [Nat.toDigitsCore_lens_eq] at hlen
    omega

theorem toString_nat_ne_empty (n : Nat) : toString n ≠ "" := by
  intro hempty
  have hdata := congrArg String.data hempty
  exact toDigits_ne_nil n hdata

theorem toString_int_ne_empty (i : Int) : toString i ≠ "" := by
  cases i with
  | ofNat m => exact toString_nat_ne_empty m
  | negSucc m =>
    intro hempty
    have hdata := congrArg String.length hempty
    change ("-" ++ toString (Nat.succ m)).length = 0 at hdata
    rw [String.length_append] at hdata
    have : ("-" : String).length = 1 := rfl
    omega

theorem trim_empty : trim "" = "" := by decide

theorem localPlan_name (host : Host) (name goal : String) (snapshot : Snapshot) :
    (trim name ≠ "" → (localPlan host name goal snapshot).name = trim name) ∧
    (trim name = "" → (localPlan host name goal snapshot).name =
      host.toUpperCase goal ++ " plan (" ++ host.toLocaleString ++ ")") := by
  constructor
  · intro hfull
    have hname : name ≠ "" := by
      intro e
      rw [e] at hfull
      exact hfull trim_empty
    simp [localPlan, hfull, hname]
  · intro hblank
    simp [localPlan, hblank]

theorem saveCurrentPlanToBackend_local (host : Host) (name : String)
    (outcome : PostPlansOutcome) (w : World) (res : Result)
    (hres : w.state.result = some res)
    (hlocal : getAuthHeader w.store = none ∨ outcome = .networkError ∨
      (∃ status, outcome = .httpError status) ∨ outcome = .ok none) :
    (saveCurrentPlanToBackend host name outcome w).state.savedPlans =
      localPlan host name w.state.goal (snapshotOf w.state res) :: w.state.savedPlans := by
  unfold saveCurrentPlanToBackend
  simp only [hres]
  cases hauth : getAuthHeader w.store with
  | none => simp [persistSavedPlans, snapshotOf]
  | some hdr =>
    rcases hlocal with h | h | ⟨status, h⟩ | h
    · rw [hauth] at h
      cases h
    · subst h
      simp [persistSavedPlans, snapshotOf]
    · subst h
      simp [persistSavedPlans, snapshotOf]
    · subst h
      simp [persistSavedPlans, snapshotOf]

/-- C5: in every state with a result, a save without a token and a save whose
    `POST /api/plans` fails (transport error, status outside 2xx, or a response
    without a plan) both prepend one locally built plan to the previous list:
    its id is the clock reading as a non-empty string, its goal, creation time
    and snapshot are the current ones, and its name is the trimmed given name
    when that is not blank and `<GOAL in upper case> plan (<locale time>)`
    otherwise. -/
theorem saveCurrentPlanToBackend_local_fallback (host : Host) (name : String)
    (outcome : PostPlansOutcome) (w : World) (res : Result)
    (hres : w.state.result = some res)
    (hlocal : getAuthHeader w.store = none ∨ outcome = .networkError ∨
      (∃ status, outcome = .httpError status) ∨ outcome = .ok none) :
    ∃ plan : Plan,
      (saveCurrentPlanToBackend host name outcome w).state.savedPlans =
        plan :: w.state.savedPlans ∧
      (saveCurrentPlanToBackend host name outcome w).state.savedPlans.length =
        w.state.savedPlans.length + 1 ∧
      plan.id = toString host.now ∧ plan.id ≠ "" ∧
      plan.goal = w.state.goal ∧
      plan.createdAt = host.toISOString ∧
      plan.snapshot = some
        { sex := w.state.sex, age := Val.ofNumber (Number w.state.age),
          weightKg := Val.ofNumber (Number w.state.weightKg),
          heightCm := Val.ofNumber (Number w.state.heightCm),
          activity := w.state.activity, goal := w.state.goal, result := some res } ∧
      (trim name ≠ "" → plan.name = trim name) ∧
      (trim name = "" → plan.name =
        host.toUpperCase w.state.goal ++ " plan (" ++ host.toLocaleString ++ ")") := by
  have hsave := saveCurrentPlanToBackend_local host name outcome w res hres hlocal
  refine ⟨localPlan host name w.state.goal (snapshotOf w.state res), hsave, ?_, rfl, ?_, rfl,
    rfl, rfl, (localPlan_name host name _ _).1, (localPlan_name host name _ _).2⟩
  · rw [hsave, List.length_cons]
  · exact toString_int_ne_empty host.now

theorem saveCurrentPlanToBackend_local_fallback_witness :
    (∃ plan : Plan,
      (saveCurrentPlanToBackend exampleHost "" (.ok none) (calculated "bulk")).state.savedPlans =
        [plan] ∧
      plan.id = "1700000000000" ∧ plan.name = "BULK plan (11/14/2023, 10:13:20 PM)") ∧
    (∃ plan : Plan,
      (saveCurrentPlanToBackend exampleHost "  Lean bulk " (.httpError 500)
        (signedIn "bulk")).state.savedPlans = [plan] ∧
      plan.id = "1700000000000" ∧ plan.name = "Lean bulk") := by
  constructor
  · obtain ⟨plan, hlist, _, hid, _, _, _, _, _, hdefault⟩ :=
      saveCurrentPlanToBackend_local_fallback exampleHost "" (.ok none) (calculated "bulk")
        (calcResult "male" "moderate" "bulk" 30 80 180) (by decide!) (Or.inl (by decide!))
    have hnil : (calculated "bulk").state.savedPlans = [] := by decide!
    rw [hnil] at hlist
    refine ⟨plan, hlist, ?_, ?_⟩
    · rw [hid]; decide!
    · rw [hdefault (by decide!)]; decide!
  · obtain ⟨plan, hlist, _, hid, _, _, _, _, hgiven, _⟩ :=
      saveCurrentPlanToBackend_local_fallback exampleHost "  Lean bulk " (.httpError 500)
        (signedIn "bulk") (calcResult "male" "moderate" "bulk" 30 80 180) (by decide!)
        (Or.inr (Or.inr (Or.inl ⟨500, rfl⟩)))
    have hnil : (signedIn "bulk").state.savedPlans = [] := by decide!
    rw [hnil] at hlist
    refine ⟨plan, hlist, ?_, ?_⟩
    · rw [hid]; decide!
    · rw [hgiven (by decide!)]; decide!

/-- C6: for every plan list, id, Local Store (with or without a token) and
    outcome of the remote delete, `deletePlan` leaves the plan list with the
    plans of that id removed and the others kept in order; when no plan has the
    id the list is unchanged. -/
theorem deletePlan_removes_by_id (id : String) (outcome : DeletePlansOutcome) (w : World) :
    (deletePlan id outcome w).state.savedPlans =
      w.state.savedPlans.filter (fun p => decide (p.id ≠ id)) ∧
    ((∀ p ∈ w.state.savedPlans, p.id ≠ id) →
      (deletePlan id outcome w).state.savedPlans = w.state.savedPlans) := by
  have hlist : (deletePlan id outcome w).state.savedPlans =
      w.state.savedPlans.filter (fun p => decide (p.id ≠ id)) := by
    unfold deletePlan
    have hpred : (fun p : Plan => p.id != id) = (fun p : Plan => decide (p.id ≠ id)) := by
      funext p
      by_cases hp : p.id = id <;> simp [hp]
    split
    · simp [persistSavedPlans, hpred]
    · cases outcome <;> simp [persistSavedPlans, hpred]
  refine ⟨hlist, ?_⟩
  intro hfresh
  rw [hlist, List.filter_eq_self]
  intro p hp
  simpa using hfresh p hp

theorem deletePlan_removes_by_id_witness :
    (deletePlan "0123456789abcdefABCDEF99" .failed
        { state := { State.initial with savedPlans :=
            [storedPlan, { storedPlan with id := "0123456789abcdefABCDEF99" }, storedPlan] },
          store := returningUser, sent := [] }).state.savedPlans = [storedPlan, storedPlan] ∧
    (deletePlan "42" .ok
        { state := { State.initial with savedPlans := [storedPlan] },
          store := returningUser, sent := [] }).state.savedPlans = [storedPlan] := by
  constructor
  · rw [(deletePlan_removes_by_id "0123456789abcdefABCDEF99" .failed _).1]
    decide
  · exact (deletePlan_removes_by_id "42" .ok
      { state := { State.initial with savedPlans := [storedPlan] },
        store := returningUser, sent := [] }).2 (by decide)

theorem loadPlan_frame (plan : Plan) (v : World) :
    (loadPlan plan v).state.savedPlans = v.state.savedPlans ∧
    (loadPlan plan v).store = v.store ∧ (loadPlan plan v).sent = v.sent := by
  simp [loadPlan]

theorem orEmpty_ofNumber (n a : Double) (hn : n = a) (ha : a.truthy = true) :
    (Val.ofNumber n).orEmpty = .num a := by
  subst hn
  simp [Val.ofNumber, Val.orEmpty, Val.truthy, ha]

/-- C10: when a state with a result and valid age, weight and height (and
    non-empty sex, activity and goal) is saved, the plan put at the head of the
    list loads back the original input: sex, activity, goal and the result are
    the saved ones and age, weight and height are the numbers the form held.
    `loadPlan` leaves the plan list and the Local Store as they are. A plan the
    backend created is taken to carry the goal and snapshot that were posted. -/
theorem loadPlan_saved_plan_roundtrip (host : Host) (name : String)
    (outcome : PostPlansOutcome) (w v : World) (res : Result) (a wt h : Double)
    (hres : w.state.result = some res)
    (hage : Number w.state.age = a) (hweight : Number w.state.weightKg = wt)
    (hheight : Number w.state.heightCm = h)
    (ha : a.truthy = true) (hwt : wt.truthy = true) (hh : h.truthy = true)
    (hsex : w.state.sex ≠ "") (hactivity : w.state.activity ≠ "") (hgoal : w.state.goal ≠ "")
    (hecho : ∀ pl : ServerPlan, outcome = .ok (some pl) →
      pl.goal = w.state.goal ∧ pl.snapshot = some (snapshotOf w.state res)) :
    ∃ plan : Plan,
      (saveCurrentPlanToBackend host name outcome w).state.savedPlans =
        plan :: w.state.savedPlans ∧
      (loadPlan plan v).state.sex = w.state.sex ∧
      (loadPlan plan v).state.age = .num a ∧
      (loadPlan plan v).state.weightKg = .num wt ∧
      (loadPlan plan v).state.heightCm = .num h ∧
      Number (loadPlan plan v).state.age = Number w.state.age ∧
      Number (loadPlan plan v).state.weightKg = Number w.state.weightKg ∧
      Number (loadPlan plan v).state.heightCm = Number w.state.heightCm ∧
      (loadPlan plan v).state.activity = w.state.activity ∧
      (loadPlan plan v).state.goal = w.state.goal ∧
      (loadPlan plan v).state.result = some res ∧
      (loadPlan plan v).state.savedPlans = v.state.savedPlans ∧
      (loadPlan plan v).store = v.store := by
  have hload : ∀ plan : Plan, plan.goal = w.state.goal →
      plan.snapshot = some (snapshotOf w.state res) →
      (loadPlan plan v).state.sex = w.state.sex ∧
      (loadPlan plan v).state.age = .num a ∧
      (loadPlan plan v).state.weightKg = .num wt ∧
      (loadPlan plan v).state.heightCm = .num h ∧
      Number (loadPlan plan v).state.age = Number w.state.age ∧
      Number (loadPlan plan v).state.weightKg = Number w.state.weightKg ∧
      Number (loadPlan plan v).state.heightCm = Number w.state.heightCm ∧
      (loadPlan plan v).state.activity = w.state.activity ∧
      (loadPlan plan v).state.goal = w.state.goal ∧
      (loadPlan plan v).state.result = some res ∧
      (loadPlan plan v).state.savedPlans = v.state.savedPlans ∧
      (loadPlan plan v).store = v.store := by
    intro plan hg hs
    have e1 := orEmpty_ofNumber _ a hage ha
    have e2 := orEmpty_ofNumber _ wt hweight hwt
    have e3 := orEmpty_ofNumber _ h hheight hh
    have hA : (loadPlan plan v).state.age = .num a := by simp [loadPlan, hs, snapshotOf, e1]
    have hW : (loadPlan plan v).state.weightKg = .num wt := by
      simp [loadPlan, hs, snapshotOf, e2]
    have hH : (loadPlan plan v).state.heightCm = .num h := by
      simp [loadPlan, hs, snapshotOf, e3]
    refine ⟨?_, hA, hW, hH, ?_, ?_, ?_, ?_, ?_, ?_, (loadPlan_frame plan v).1,
      (loadPlan_frame plan v).2.1⟩
    · simp [loadPlan, hs, snapshotOf, strOr, hsex]
    · rw [hA, hage]; rfl
    · rw [hW, hweight]; rfl
    · rw [hH, hheight]; rfl
    · simp [loadPlan, hs, snapshotOf, strOr, hactivity]
    · simp [loadPlan, hg, strOr, hgoal]
    · simp [loadPlan, hs, snapshotOf]
  by_cases hremote : (getAuthHeader w.store).isSome ∧ ∃ pl, outcome = .ok (some pl)
  · obtain ⟨hauth, pl, hpl⟩ := hremote
    obtain ⟨hdr, hhdr⟩ := Option.isSome_iff_exists.mp hauth
    obtain ⟨hg, hs⟩ := hecho pl hpl
    refine ⟨pl.mapped, ?_, hload pl.mapped hg hs⟩
    subst hpl
    simp [saveCurrentPlanToBackend, hres, hhdr, persistSavedPlans]
  · have hlocal : getAuthHeader w.store = none ∨ outcome = .networkError ∨
        (∃ status, outcome = .httpError status) ∨ outcome = .ok none := by
      cases hauth : getAuthHeader w.store with
      | none => exact Or.inl rfl
      | some hdr =>
        right
        cases outcome with
        | networkError => exact Or.inl rfl
        | httpError status => exact Or.inr (Or.inl ⟨status, rfl⟩)
        | ok plan =>
          cases plan with
          | none => exact Or.inr (Or.inr rfl)
          | some pl => exact absurd ⟨by simp [hauth], pl, rfl⟩ hremote
    exact ⟨_, saveCurrentPlanToBackend_local host name outcome w res hres hlocal,
      hload _ rfl rfl⟩

theorem loadPlan_saved_plan_roundtrip_witness :
    (∃ plan : Plan,
      (saveCurrentPlanToBackend exampleHost "" (.ok (some createdPlan))
        (signedIn "cut")).state.savedPlans = [plan] ∧
      plan.id = "65540a1f9b3c2d4e5f6a7b8c" ∧
      (loadPlan plan (calculated "bulk")).state.age = .num 30 ∧
      (loadPlan plan (calculated "bulk")).state.goal = "cut") ∧
    ∃ plan : Plan,
      (saveCurrentPlanToBackend exampleHost "" .networkError (signedIn "cut")).state.savedPlans =
        [plan] ∧
      (loadPlan plan (calculated "bulk")).state.sex = "male" ∧
      (loadPlan plan (calculated "bulk")).state.age = .num 30 ∧
      (loadPlan plan (calculated "bulk")).state.weightKg = .num 80 ∧
      (loadPlan plan (calculated "bulk")).state.heightCm = .num 180 ∧
      (loadPlan plan (calculated "bulk")).state.activity = "moderate" ∧
      (loadPlan plan (calculated "bulk")).state.goal = "cut" ∧
      (loadPlan plan (calculated "bulk")).state.result =
        some (calcResult "male" "moderate" "cut" 30 80 180) := by
  have hnil : (signedIn "cut").state.savedPlans = [] := by decide!
  constructor
  · obtain ⟨plan, hlist, _, hage, _, _, _, _, _, _, hgoal, _⟩ :=
      loadPlan_saved_plan_roundtrip exampleHost "" (.ok (some createdPlan)) (signedIn "cut")
        (calculated "bulk") (calcResult "male" "moderate" "cut" 30 80 180) 30 80 180
        (by decide!) (by decide!) (by decide!) (by decide!) (by decide!) (by decide!) (by decide!)
        (by decide!) (by decide!) (by decide!)
        (by
          intro pl hpl
          cases hpl
          decide!)
    have hsaved : (saveCurrentPlanToBackend exampleHost "" (.ok (some createdPlan))
        (signedIn "cut")).state.savedPlans = [createdPlan.mapped] := by
      decide!
    rw [hnil] at hlist
    have hplan : plan = createdPlan.mapped := by
      rw [hsaved] at hlist
      exact (List.cons.inj hlist).1.symm
    refine ⟨plan, hlist, ?_, hage, ?_⟩
    · rw [hplan]; decide
    · rw [hgoal]; decide!
  obtain ⟨plan, hlist, hsex, hage, hweight, hheight, _, _, _, hactivity, hgoal, hresult, _⟩ :=
    loadPlan_saved_plan_roundtrip exampleHost "" .networkError (signedIn "cut")
      (calculated "bulk") (calcResult "male" "moderate" "cut" 30 80 180) 30 80 180
      (by decide!) (by decide!) (by decide!) (by decide!) (by decide!) (by decide!) (by decide!)
      (by decide!) (by decide!) (by decide!) (by intro pl hpl; cases hpl)
  rw [hnil] at hlist
  refine ⟨plan, hlist, ?_, hage, hweight, hheight, ?_, ?_, hresult⟩
  · rw [hsex]; decide!
  · rw [hactivity]; decide!
  · rw [hgoal]; decide!

/-! ## Mount -/

/-- C7, the failing input: a signed-in user with one locally saved plan mounts
    the dashboard and `GET /api/plans` fails. The persist effect of the first
    render has stored the empty list before the `catch` reads the Local Store,
    so the plan list ends empty and `savedPlans` in the Local Store holds the
    empty list. Without a token the same store gives the plan back. -/
theorem mount_remote_failure_drops_local_plans :
    returningUser.savedPlans = some [storedPlan] ∧
    (getAuthHeader returningUser).isSome = true ∧
    (mount returningUser .failed .failed).state.savedPlans = [] ∧
    (mount returningUser .failed .failed).store.savedPlans = some [] ∧
    (mount { returningUser with authToken := none } .failed .failed).state.savedPlans =
      [storedPlan] ∧
    (mount { returningUser with authToken := none } .failed .failed).store.savedPlans =
      some [storedPlan] := by
  decide

/-! ## Saving before a result exists -/

/-- C11, the failing input: the scenario with goal cut typed into the form and
    no result yet. One call of `saveCurrentPlanToBackend` runs `handleCalculate`,
    so a result is set, but the handler still sees the `result` of its own render,
    reports invalid input, closes the prompt and adds no plan, with or without a
    token. Only a second call, made once the result is present, adds the plan. -/
theorem saveCurrentPlanToBackend_without_result_adds_no_plan :
    (scenario "cut").state.result = none ∧
    Number (scenario "cut").state.age = .fin 30 ∧
    Number (scenario "cut").state.weightKg = .fin 80 ∧
    Number (scenario "cut").state.heightCm = .fin 180 ∧
    (saveCurrentPlanToBackend exampleHost "" .networkError (scenario "cut")).state.result =
      some (calcResult "male" "moderate" "cut" 30 80 180) ∧
    (saveCurrentPlanToBackend exampleHost "" .networkError (scenario "cut")).state.savedPlans =
      [] ∧
    (saveCurrentPlanToBackend exampleHost "" .networkError (scenario "cut")).state.notes =
      "Provide valid Age, Weight, Height to save a plan." ∧
    (saveCurrentPlanToBackend exampleHost "" (.ok (some createdPlan))
      { scenario "cut" with store :=
          { (scenario "cut").store with authToken := some "t0k3n" } }).state.savedPlans = [] ∧
    ((saveCurrentPlanToBackend exampleHost "" .networkError
      (saveCurrentPlanToBackend exampleHost "" .networkError
        (scenario "cut"))).state.savedPlans.map (fun p => p.snapshot.bind (fun s => s.result))) =
      [some (calcResult "male" "moderate" "cut" 30 80 180)] := by
  decide!

end Dashboard
